import Mathlib

/-!
Verification development for the `gravel` polymorphic value container
(`dynamic_value.hpp`, `operations_table.hpp`, `dynamic_value_properties.hpp`).

The C++ code is shallowly embedded:

* A concrete C++ class type is a `CType`: its `sizeof`, the value of the
  first pointer-width bytes of a freshly constructed object (`fw`, e.g. the
  vptr of a polymorphic object), whether it is copy/move constructible and
  whether its destructor is virtual.
* A live object is an `Obj`: its dynamic type id, the current contents of its
  first pointer-width bytes (`firstWord`), its payload value, a moved-from
  flag and a tag recording which constructor created it (basic / copy / move),
  mirroring the `CreationMethod` instrumentation of the repository's tests.
* `Mem` is the heap (an association list from addresses to objects, address 0
  is the null pointer) together with instrumentation counters: constructor
  invocations by kind, a destructor log (the type id whose destructor ran)
  and a count of `delete` calls aimed at a nonzero address that was never
  allocated (undefined behavior in C++).
* A `Container` is one `dynamic_value` instance: its compile-time properties,
  the `m_local` flag, the buffer contents (`Slot`: either an object
  constructed in place, or the first pointer-width bytes interpreted as an
  address) and the erased operations table (`some t` when
  `OperationsTable<BaseT, t>` was placement-constructed into `m_op_table`).

`sizeof` arithmetic is `Nat`; the pointer width is fixed to 8 bytes (x86-64).
-/

/-- Size in bytes of a native pointer (`sizeof(BaseT*)`, `sizeof(void*)`). -/
def ptrSize : Nat := 8

/-- A concrete C++ class type as far as the container can observe it. -/
structure CType where
  id : Nat
  size : Nat
  /-- Contents of the object's first pointer-width bytes right after
  construction (the vptr for a polymorphic type, else the first members). -/
  fw : Nat
  copyCon : Bool
  moveCon : Bool
  virtualDtor : Bool
deriving DecidableEq

/-- Which constructor produced an object (`CreationMethod` in the tests). -/
inductive Creation where
  | basic
  | copied
  | moved
deriving DecidableEq

/-- A live object instance. -/
structure Obj where
  tyId : Nat
  /-- Current contents of the object's first pointer-width bytes. -/
  firstWord : Nat
  /-- Abstract payload value of the object's data members. -/
  val : Int
  movedFrom : Bool
  created : Creation
deriving DecidableEq

/-- `T(args...)`: direct construction from arguments. -/
def mkObj (t : CType) (v : Int) : Obj :=
  ⟨t.id, t.fw, v, false, Creation.basic⟩

/-- `T(const T&)`: copy construction; the source is not modified. -/
def copyFromObj (t : CType) (src : Obj) : Obj :=
  ⟨t.id, t.fw, src.val, false, Creation.copied⟩

/-- `T(T&&)`: move construction; the produced object. -/
def moveFromObj (t : CType) (src : Obj) : Obj :=
  ⟨t.id, t.fw, src.val, false, Creation.moved⟩

/-- The state move construction leaves the source object in. -/
def markMoved (o : Obj) : Obj :=
  { o with movedFrom := true }

/-- First-match association lookup on the heap. -/
def assocFind : List (Nat × Obj) → Nat → Option Obj
  | [], _ => none
  | p :: rest, a => if p.1 = a then some p.2 else assocFind rest a

/-- Overwrite every binding of address `a`. -/
def assocSet : List (Nat × Obj) → Nat → Obj → List (Nat × Obj)
  | [], _, _ => []
  | p :: rest, a, o => (if p.1 = a then (a, o) else p) :: assocSet rest a o

/-- Remove every binding of address `a`. -/
def assocErase : List (Nat × Obj) → Nat → List (Nat × Obj)
  | [], _ => []
  | p :: rest, a => if p.1 = a then assocErase rest a else p :: assocErase rest a

/-- Heap plus instrumentation counters. -/
structure Mem where
  heap : List (Nat × Obj)
  nextAddr : Nat
  /-- Payload-type constructor invocations (any kind). -/
  ctors : Nat
  /-- Copy-constructor invocations. -/
  copies : Nat
  /-- Move-constructor invocations. -/
  moves : Nat
  /-- Type ids whose destructor ran, most recent first. -/
  dtorLog : List Nat
  /-- `delete` calls on a nonzero address with no allocation (C++ UB). -/
  invalidFrees : Nat
deriving DecidableEq

def Mem.empty : Mem := ⟨[], 1, 0, 0, 0, [], 0⟩

def Mem.lookup (m : Mem) (a : Nat) : Option Obj :=
  assocFind m.heap a

def Mem.alloc (m : Mem) (o : Obj) : Nat × Mem :=
  (m.nextAddr, { m with heap := (m.nextAddr, o) :: m.heap, nextAddr := m.nextAddr + 1 })

def Mem.update (m : Mem) (a : Nat) (o : Obj) : Mem :=
  { m with heap := assocSet m.heap a o }

def Mem.bumpBasic (m : Mem) : Mem := { m with ctors := m.ctors + 1 }

def Mem.bumpCopy (m : Mem) : Mem := { m with ctors := m.ctors + 1, copies := m.copies + 1 }

def Mem.bumpMove (m : Mem) : Mem := { m with ctors := m.ctors + 1, moves := m.moves + 1 }

/-- The destructor that an explicit `p->~BaseT()` or `delete (BaseT*)p` runs
on an object of dynamic type `o.tyId`: the dynamic type's destructor when the
base destructor is virtual, else only the base's own destructor. -/
def runDtor (base : CType) (o : Obj) : Nat :=
  if base.virtualDtor then o.tyId else base.id

/-- `delete val` on a `BaseT*` holding address `a`: no-op for null, a
destructor run plus deallocation for a live allocation, and an invalid free
(undefined behavior) for any other nonzero address. -/
def Mem.deleteAt (m : Mem) (base : CType) (a : Nat) : Mem :=
  if a = 0 then m
  else
    match m.lookup a with
    | some o =>
        { m with heap := assocErase m.heap a, dtorLog := runDtor base o :: m.dtorLog }
    | none => { m with invalidFrees := m.invalidFrees + 1 }

/-! ### Compile-time policy (`dynamic_value_properties.hpp`) -/

/-- `default_buffer_size<T>()`:
`std::max(sizeof(T) + sizeof(void*), 4 * sizeof(void*))`. -/
def defaultBufferSize (base : CType) : Nat :=
  max (base.size + ptrSize) (4 * ptrSize)

/-- `Attr` is a bitmask: `None = 0x00`, `Copyable = 0x01`, `Movable = 0x02`,
`Default = 0xFF`; we keep the numeric encoding. -/
def attrNone : Nat := 0x00
def attrCopyable : Nat := 0x01
def attrMovable : Nat := 0x02
def attrDefault : Nat := 0xFF

/-- `default_attributes<T>()`: Copyable iff `T` is copy-constructible or-ed
with Movable iff `T` is move-constructible. -/
def defaultAttributes (base : CType) : Nat :=
  Nat.lor (if base.copyCon then attrCopyable else attrNone)
    (if base.moveCon then attrMovable else attrNone)

/-- `gravel::Properties<Attributes, SmallBufferSize>`. -/
structure Properties where
  attributes : Nat
  smallBufferSize : Nat
deriving DecidableEq

/-- The resolved `DynamicValProperties<BaseT, PropertiesT>`. -/
structure DynProps where
  copyable : Bool
  moveable : Bool
  smallBufferSize : Nat
deriving DecidableEq

/-- `DynamicValProperties`: resolve `Attr::Default` against the base type,
test the Copyable / Movable bits, and default a zero buffer size. -/
def dynProps (base : CType) (p : Properties) : DynProps :=
  let eff := if p.attributes = attrDefault then defaultAttributes base else p.attributes
  { copyable := Nat.land eff attrCopyable != 0
    moveable := Nat.land eff attrMovable != 0
    smallBufferSize :=
      if p.smallBufferSize = 0 then defaultBufferSize base else p.smallBufferSize }

/-- The class-scope `static_assert(properties::small_buffer_size >= sizeof(BaseT*))`:
the container type instantiates iff this compile-time predicate holds. -/
def instantiationOk (base : CType) (p : Properties) : Bool :=
  decide (ptrSize ≤ (dynProps base p).smallBufferSize)

/-! ### The container (`dynamic_value.hpp`) and the erased operations
(`operations_table.hpp`) -/

/-- Contents of the `m_buffer` payload bytes: an object constructed in place,
or the first pointer-width bytes read as an address (`ptr 0` is the
zero-initialized buffer `m_buffer({0})`). -/
inductive Slot where
  | obj (o : Obj)
  | ptr (a : Nat)
deriving DecidableEq

/-- One `dynamic_value` instance. `table = some t` models a live
`OperationsTable<BaseT, t>` placement-constructed into `m_op_table`. -/
structure Container where
  dp : DynProps
  isLocal : Bool
  slot : Slot
  table : Option CType
deriving DecidableEq

/-- The member-initializer state `m_local(false), m_buffer({0}), m_op_table({0})`
every container constructor starts from. -/
def freshShell (dp : DynProps) : Container :=
  ⟨dp, false, Slot.ptr 0, none⟩

/-- `get()`: the held object; reads the buffer in place when local, else
dereferences the stored pointer. -/
def Container.getObj (c : Container) (m : Mem) : Option Obj :=
  match c.isLocal, c.slot with
  | true, Slot.obj o => some o
  | false, Slot.ptr a => m.lookup a
  | _, _ => none

/-- `op_table_size > 0` gate: the table is placement-constructed only when the
container is copyable or moveable. -/
def tableFor (dp : DynProps) (t : CType) : Option CType :=
  if dp.copyable || dp.moveable then some t else none

/-- `set_emplace<T>(args...)`: heap-allocate and store the pointer when
`sizeof(T) > properties::small_buffer_size`, else placement-construct in the
buffer; then construct a fresh operations table. -/
def setEmplace (c : Container) (t : CType) (v : Int) (m : Mem) : Container × Mem :=
  if t.size > c.dp.smallBufferSize then
    let m1 := m.bumpBasic
    let am := m1.alloc (mkObj t v)
    ({ c with isLocal := false, slot := Slot.ptr am.1, table := tableFor c.dp t }, am.2)
  else
    ({ c with isLocal := true, slot := Slot.obj (mkObj t v), table := tableFor c.dp t },
      m.bumpBasic)

/-- `set(T&& value)`: construct the held object from `value` with `T`'s move
constructor (`byMove = true`, rvalue path) or copy constructor (`byMove =
false`, lvalue path), heap or in-place by the same sizing rule; then a fresh
table. Returns the container, the source object as the constructor left it,
and memory. -/
def setVal (c : Container) (t : CType) (src : Obj) (byMove : Bool) (m : Mem) :
    Container × Obj × Mem :=
  let o := if byMove then moveFromObj t src else copyFromObj t src
  let srcAfter := if byMove then markMoved src else src
  let m1 := if byMove then m.bumpMove else m.bumpCopy
  if t.size > c.dp.smallBufferSize then
    let am := m1.alloc o
    ({ c with isLocal := false, slot := Slot.ptr am.1, table := tableFor c.dp t },
      srcAfter, am.2)
  else
    ({ c with isLocal := true, slot := Slot.obj o, table := tableFor c.dp t },
      srcAfter, m1)

/-- Result of one `OperationsTable` virtual call: the destination container,
the source object as the call left it (the caller writes it back through the
source pointer), and memory. -/
structure TClone where
  c : Container
  m : Mem
deriving DecidableEq

structure TMove where
  c : Container
  srcObj : Obj
  m : Mem
deriving DecidableEq

/-- `OperationsTable<BaseT, SubT>::clone`. The whole body sits under
`if constexpr (std::is_copy_constructible<BaseT>::value)`; when that fails the
call does nothing at all. Otherwise: heap-allocate a copy and store its
pointer when `sizeof(SubT)` exceeds the destination buffer, else
copy-construct in place; always construct a fresh table. -/
def tableClone (base sub : CType) (dst : Container) (srcObj : Obj) (m : Mem) : TClone :=
  if base.copyCon = false then ⟨dst, m⟩
  else if sub.size > dst.dp.smallBufferSize then
    let m1 := m.bumpCopy
    let am := m1.alloc (copyFromObj sub srcObj)
    ⟨{ dst with isLocal := false, slot := Slot.ptr am.1, table := some sub }, am.2⟩
  else
    ⟨{ dst with isLocal := true, slot := Slot.obj (copyFromObj sub srcObj), table := some sub },
      m.bumpCopy⟩

/-- `OperationsTable<BaseT, SubT>::move`. The body sits under
`if constexpr (std::is_move_constructible<BaseT>::value)`. For an oversized
`SubT` with a non-local source the code executes

  `std::memcpy(small_buffer.data(), casted_source, sizeof(SubT*));`
  `std::memset(src, 0, sizeof(src));`

`casted_source`/`src` point at the payload object itself, so the memcpy
copies the object's first pointer-width bytes (`srcObj.firstWord`) into the
destination's pointer slot, and the memset zeroes those bytes inside the
object; neither touches the source container's pointer slot. The embedding
reproduces these byte moves exactly. -/
def tableMove (base sub : CType) (dst : Container) (srcObj : Obj) (srcLocal : Bool)
    (m : Mem) : TMove :=
  if base.moveCon = false then ⟨dst, srcObj, m⟩
  else if sub.size > dst.dp.smallBufferSize then
    if srcLocal = false then
      ⟨{ dst with isLocal := false, slot := Slot.ptr srcObj.firstWord, table := some sub },
        { srcObj with firstWord := 0 }, m⟩
    else
      let m1 := m.bumpMove
      let am := m1.alloc (moveFromObj sub srcObj)
      ⟨{ dst with isLocal := false, slot := Slot.ptr am.1, table := some sub },
        markMoved srcObj, am.2⟩
  else
    ⟨{ dst with isLocal := true, slot := Slot.obj (moveFromObj sub srcObj), table := some sub },
      markMoved srcObj, m.bumpMove⟩

/-- `do_clone(other)`: dispatch through the source's stored table with
`&other.get()` as the source object. Reading a table from zeroed bytes or
dereferencing a dangling payload is undefined behavior; modeled as a no-op. -/
def doClone (base : CType) (dst src : Container) (m : Mem) : Container × Mem :=
  match src.table, src.getObj m with
  | some sub, some o =>
      let r := tableClone base sub dst o m
      (r.c, r.m)
  | _, _ => (dst, m)

/-- `do_move(std::move(other))`: dispatch through the source's stored table
with `&other.get()` as the source object and `other.m_local` as `src_local`.
Writes the table performs through that pointer land in the source's own
buffer when the source is local, else in the heap object it points to; the
source container's fields themselves are not written. -/
def doMove (base : CType) (dst src : Container) (m : Mem) :
    Container × Container × Mem :=
  match src.table with
  | none => (dst, src, m)
  | some sub =>
    match src.isLocal, src.slot with
    | true, Slot.obj o =>
        let r := tableMove base sub dst o true m
        (r.c, { src with slot := Slot.obj r.srcObj }, r.m)
    | false, Slot.ptr a =>
        match m.lookup a with
        | some o =>
            let r := tableMove base sub dst o false m
            (r.c, src, r.m.update a r.srcObj)
        | none => (dst, src, m)
    | _, _ => (dst, src, m)

/-- `destroy()`: explicit destructor call on the buffer when local, else
`delete` of the stored pointer. -/
def Container.destroy (c : Container) (base : CType) (m : Mem) : Mem :=
  if c.isLocal then
    match c.slot with
    | Slot.obj o => { m with dtorLog := runDtor base o :: m.dtorLog }
    | Slot.ptr _ => m
  else
    match c.slot with
    | Slot.ptr a => m.deleteAt base a
    | Slot.obj _ => m

/-! ### Public API layer: requires-clause gating and dispatch -/

/-- `requires`-clause of the same-type move constructor (line 110):
`properties::copyable && properties::moveable`. -/
def sameMoveCtor110Available (dp : DynProps) : Bool :=
  dp.copyable && dp.moveable

/-- `requires`-clause of the cross-base move constructor (line 146)
instantiated at the same base and configuration:
`properties::moveable || properties::copyable`. -/
def crossMoveCtorAvailable (dp : DynProps) : Bool :=
  dp.moveable || dp.copyable

/-- An rvalue of the container's own type can be move-constructed from iff
either of the two constructors above is viable. -/
def containerMoveCtorAvailable (dp : DynProps) : Bool :=
  sameMoveCtor110Available dp || crossMoveCtorAvailable dp

/-- `requires`-clause of the same-type move assignment (line 251):
`properties::coyable || properties::moveable`. No member `coyable` exists,
so substituting into that atomic constraint always fails and only the
`moveable` disjunct can satisfy it. -/
def moveAssignOp251Available (dp : DynProps) : Bool :=
  dp.moveable

/-- An rvalue container can be move-assigned from: through the move-assign
overload when it is viable, else by binding to the `const&` copy-assign
overload (line 238, `requires properties::copyable`). -/
def containerMoveAssignAvailable (dp : DynProps) : Bool :=
  moveAssignOp251Available dp || dp.copyable

/-- `requires`-clause of the rvalue value constructor (line 78) and rvalue
value assignment (line 217): `properties::moveable || properties::copyable`. -/
def valueRvalueAvailable (dp : DynProps) : Bool :=
  dp.moveable || dp.copyable

/-- Move construction from another container: both viable constructors run
`if constexpr (properties::moveable) do_move else do_clone` over the
freshly initialized shell. Returns destination, source-after, memory. -/
def containerMoveConstruct (base : CType) (dp : DynProps) (src : Container) (m : Mem) :
    Container × Container × Mem :=
  if dp.moveable then doMove base (freshShell dp) src m
  else
    let r := doClone base (freshShell dp) src m
    (r.1, src, r.2)

/-- Copy construction from another container: `do_clone` over the shell. -/
def containerCopyConstruct (base : CType) (dp : DynProps) (src : Container) (m : Mem) :
    Container × Mem :=
  doClone base (freshShell dp) src m

/-- Move assignment from another container: `destroy()` then
`if constexpr (properties::moveable) do_move else do_clone` (the latter is
the `const&` overload the rvalue falls back to when move assignment is not
viable). -/
def containerMoveAssign (base : CType) (dst src : Container) (m : Mem) :
    Container × Container × Mem :=
  let m1 := dst.destroy base m
  if dst.dp.moveable then doMove base dst src m1
  else
    let r := doClone base dst src m1
    (r.1, src, r.2)

/-- Copy assignment from another container: `destroy()` then `do_clone`. -/
def containerCopyAssign (base : CType) (dst src : Container) (m : Mem) :
    Container × Mem :=
  doClone base dst src (dst.destroy base m)

/-- The rvalue value constructor (line 78):
`if constexpr (properties::moveable) set(std::forward<T>(other)) else set(other)`. -/
def valueRvalueConstruct (dp : DynProps) (t : CType) (srcObj : Obj)
    (m : Mem) : Container × Obj × Mem :=
  setVal (freshShell dp) t srcObj dp.moveable m

/-- Value category of a C++ expression, as far as reference binding needs. -/
inductive ValueCat where
  | lvalue
  | rvalue
deriving DecidableEq

/-- An rvalue-reference function parameter (`X&&` with `X` a non-reference
type fixed by an explicit template argument, so no reference collapsing and
no deduction) binds an argument expression iff that expression is an rvalue. -/
def rrefBinds : ValueCat → Bool
  | ValueCat.lvalue => false
  | ValueCat.rvalue => true

/-- Whether a call `set<NakedT>(expr)` is well-formed: the explicit template
argument fixes `set`'s parameter to `NakedT&&`, so the call binds iff `expr`
is an rvalue. -/
def setExplicitOk (cat : ValueCat) : Bool :=
  rrefBinds cat

/-- The rvalue value assignment (lines 217-231): `destroy()`, then
`if constexpr (properties::moveable) set<NakedT>(std::forward<T>(other))
else set<NakedT>(other)`. `std::forward<T>(other)` is an rvalue, so the
moveable branch binds and moves. In the else branch the argument `other` —
a named parameter — is an LVALUE, and the explicitly-fixed `NakedT&&`
parameter cannot bind it: that branch is ill-formed when instantiated
(a hard compile error, not SFINAE), modeled as `none`; the copy it was
presumably meant to perform (compare the constructor's branch, which calls
`set(other)` with deduction and does copy) is unreachable. -/
def valueRvalueAssign (base : CType) (dst : Container) (t : CType) (srcObj : Obj)
    (m : Mem) : Option (Container × Obj × Mem) :=
  if dst.dp.moveable then
    if setExplicitOk ValueCat.rvalue then
      some (setVal dst t srcObj true (dst.destroy base m))
    else none
  else
    if setExplicitOk ValueCat.lvalue then
      some (setVal dst t srcObj false (dst.destroy base m))
    else none

/-- `emplace<T>(args...)`: `destroy()` then `set_emplace<T>(args...)`. -/
def emplaceOp (base : CType) (c : Container) (t : CType) (v : Int) (m : Mem) :
    Container × Mem :=
  setEmplace c t v (c.destroy base m)

/-- `make_emplaced<T>(args...)`: the private emplacement constructor runs
`set_emplace<T>` on an uninitialized container (no destroy of prior state). -/
def makeEmplaced (dp : DynProps) (t : CType) (v : Int) (m : Mem) : Container × Mem :=
  setEmplace (freshShell dp) t v m

/-- Client-side mutation of the held object through `get()` (writes one data
member; used to state independent ownership of clones). -/
def Container.mutateVal (c : Container) (m : Mem) (v : Int) : Container × Mem :=
  if c.isLocal then
    match c.slot with
    | Slot.obj o => ({ c with slot := Slot.obj { o with val := v } }, m)
    | Slot.ptr _ => (c, m)
  else
    match c.slot with
    | Slot.ptr a =>
        match m.lookup a with
        | some o => (c, m.update a { o with val := v })
        | none => (c, m)
    | Slot.obj _ => (c, m)

/-- The container holds object `o` under memory `m` (invariant I1). -/
def Holds (c : Container) (m : Mem) (o : Obj) : Prop :=
  (c.isLocal = true ∧ c.slot = Slot.obj o) ∨
    (c.isLocal = false ∧ ∃ a, a ≠ 0 ∧ c.slot = Slot.ptr a ∧ m.lookup a = some o)

/-- `Holds` strengthened with the allocator invariant that the payload's
address precedes the bump pointer (true of every address `Mem.alloc` hands
out). -/
def HoldsWF (c : Container) (m : Mem) (o : Obj) : Prop :=
  (c.isLocal = true ∧ c.slot = Slot.obj o) ∨
    (c.isLocal = false ∧
      ∃ a, a ≠ 0 ∧ a < m.nextAddr ∧ c.slot = Slot.ptr a ∧ m.lookup a = some o)

/-! ### Helper lemmas about the heap -/

theorem assocFind_assocSet_ne (l : List (Nat × Obj)) (a b : Nat) (o : Obj)
    (h : b ≠ a) : assocFind (assocSet l a o) b = assocFind l b := by
  induction l with
  | nil => simp [assocSet, assocFind]
  | cons p rest ih =>
    by_cases hp : p.1 = a
    · have hab : a ≠ b := fun hh => h hh.symm
      have hpb : p.1 ≠ b := by rw [hp]; exact hab
      simp only [assocSet, if_pos hp, assocFind, if_neg hab, if_neg hpb, ih]
    · simp only [assocSet, if_neg hp, assocFind, ih]

theorem doClone_moves (base : CType) (dst src : Container) (m : Mem) :
    (doClone base dst src m).2.moves = m.moves := by
  unfold doClone
  cases src.table with
  | none => rfl
  | some sub =>
    cases src.getObj m with
    | none => rfl
    | some o =>
      simp only [tableClone]
      by_cases hc : base.copyCon = false
      · simp [hc]
      · by_cases hs : sub.size > dst.dp.smallBufferSize
        · simp [hc, hs, Mem.alloc, Mem.bumpCopy]
        · simp [hc, hs, Mem.bumpCopy]

theorem getObj_after_clone (base : CType) (dst src : Container) (o : Obj) (m : Mem)
    (h : HoldsWF src m o) : src.getObj (doClone base dst src m).2 = some o := by
  rcases h with ⟨hl, hs⟩ | ⟨hl, a, ha0, haN, hs, hlk⟩
  · have hg : src.getObj m = some o := by
      simp [Container.getObj, hl, hs]
    unfold doClone
    cases ht : src.table with
    | none => simp [Container.getObj, hl, hs]
    | some sub =>
      rw [hg]
      simp only [tableClone]
      by_cases hc : base.copyCon = false
      · simp [hc, Container.getObj, hl, hs]
      · by_cases hsz : sub.size > dst.dp.smallBufferSize
        · simp [hc, hsz, Container.getObj, hl, hs]
        · simp [hc, hsz, Container.getObj, hl, hs]
  · have hg : src.getObj m = some o := by
      simp [Container.getObj, hl, hs, hlk]
    have hne : a ≠ m.nextAddr := Nat.ne_of_lt haN
    unfold doClone
    cases ht : src.table with
    | none => exact hg
    | some sub =>
      rw [hg]
      simp only [tableClone]
      by_cases hc : base.copyCon = false
      · simp [hc]
        exact hg
      · by_cases hsz : sub.size > dst.dp.smallBufferSize
        · simp only [hc, hsz]
          simp only [Bool.false_eq_true, if_false, if_true, Mem.alloc, Mem.bumpCopy]
          simp [Container.getObj, hl, hs, Mem.lookup, assocFind, Ne.symm hne]
          simpa [Mem.lookup] using hlk
        · simp only [hc, hsz]
          simp only [Bool.false_eq_true, if_false]
          simp [Container.getObj, hl, hs, Mem.bumpCopy, Mem.lookup]
          simpa [Mem.lookup] using hlk

/-! ### Concrete scenarios exercising the heap-to-heap move path -/

/-- A copy- and move-constructible polymorphic base of size 16. -/
def baseB : CType := ⟨1, 16, 1000, true, true, true⟩

/-- A concrete type of size 100 (first word 1001, e.g. its vptr value):
larger than the configured 32-byte buffer, so always heap-stored. -/
def bigT : CType := ⟨2, 100, 1001, true, true, true⟩

/-- `DynamicValProperties` for `Properties<Attr::Default, 32>` over `baseB`. -/
def dpB : DynProps := dynProps baseB ⟨attrDefault, 32⟩

/-- `make_emplaced<bigT>(7)`: heap-allocates at address 1. -/
def mvStart : Container × Mem := makeEmplaced dpB bigT 7 Mem.empty

/-- Move-constructing a second container from `mvStart`: exercises the
`sizeof(SubT) > buffer && !src_local` branch of `OperationsTable::move`. -/
def mvRun : Container × Container × Mem :=
  containerMoveConstruct baseB dpB mvStart.1 mvStart.2

/-- Like `bigT`, but the object's first data word happens to hold the value 1
(ordinary client data, e.g. an integer member equal to 1). -/
def bigT2 : CType := ⟨3, 100, 1, true, true, true⟩

def mv2Start : Container × Mem := makeEmplaced dpB bigT2 9 Mem.empty

def mv2Run : Container × Container × Mem :=
  containerMoveConstruct baseB dpB mv2Start.1 mv2Start.2

/-- Destroy the move destination, then the moved-from source. -/
def mv2End : Mem :=
  mv2Run.2.1.destroy baseB (mv2Run.1.destroy baseB mv2Run.2.2)

/-- C1: the spec's pointer-steal law says that moving a heap-stored payload
into a container whose buffer it exceeds copies the source's heap POINTER
into the destination's pointer slot, zeroes the SOURCE CONTAINER's pointer
slot, and transfers ownership of the same allocation. The code instead
executes `memcpy(small_buffer.data(), casted_source, sizeof(SubT*))` and
`memset(src, 0, sizeof(src))` where `casted_source`/`src` address the payload
object itself: evaluated on a container holding a 100-byte object (first
word 1001) at heap address 1, the destination's pointer slot receives 1001
(the object's first word, not the address 1), the source's pointer slot still
holds 1 un-zeroed, and the heap object's own first word is zeroed. No move
constructor runs, but the allocation is not transferred. -/
theorem c1_pointer_steal_divergence :
    mvStart.1.isLocal = false ∧ mvStart.1.slot = Slot.ptr 1 ∧
    mvStart.2.lookup 1 = some ⟨2, 1001, 7, false, Creation.basic⟩ ∧
    mvRun.2.2.moves = 0 ∧
    mvRun.1.slot = Slot.ptr 1001 ∧ (1001 : Nat) ≠ 1 ∧
    mvRun.2.1.slot = Slot.ptr 1 ∧
    mvRun.2.2.lookup 1 = some ⟨2, 0, 7, false, Creation.basic⟩ := by
  decide

/-- C2: the destructor-count law fails on the heap-to-heap move path. With a
100-byte payload whose first data word holds the value 1, emplaced at heap
address 1 and then move-constructed into a second container, the botched
pointer steal leaves BOTH containers' pointer slots holding address 1 (the
destination because the object's first word was 1, the source because its
slot is never zeroed). Destroying destination then source: one payload
instance was constructed, but two heap deletions of address 1 are attempted;
the second is a double free of an already-destroyed instance (recorded as an
invalid free, undefined behavior in C++). -/
theorem c2_destructor_count_divergence :
    mv2Start.2.ctors = 1 ∧
    mv2Run.1.slot = Slot.ptr 1 ∧ mv2Run.2.1.slot = Slot.ptr 1 ∧
    mv2End.ctors = 1 ∧ mv2End.dtorLog = [3] ∧ mv2End.invalidFrees = 1 := by
  decide

/-- C5: the placement law's heap half ("the first pointer-width bytes of the
payload buffer hold the pointer to the object") fails on the move path.
After moving a heap-stored 100-byte object (at address 1, first word 1001)
into a container with a 32-byte buffer, the destination is flagged non-local
as required, but its pointer slot holds 1001 — an address at which nothing
was ever allocated — so dereferencing the destination finds no object, while
the payload still sits unreferenced at address 1. -/
theorem c5_move_placement_divergence :
    bigT.size > dpB.smallBufferSize ∧
    mvRun.1.isLocal = false ∧
    mvRun.1.slot = Slot.ptr 1001 ∧
    mvRun.2.2.lookup 1001 = none ∧
    mvRun.1.getObj mvRun.2.2 = none ∧
    (mvRun.2.2.lookup 1).isSome = true := by
  decide

/-- C3: with `Properties<Attr::Movable>` (movable, not copyable) the
container still supports move construction and move assignment from another
container of the same base and configuration, and both delegate to the
source's stored operations table's `move` (through `do_move`). The same-type
move constructor at line 110 is constrained on `copyable && moveable` and is
NOT viable, but the cross-base move constructor (line 146) is, requiring only
`moveable || copyable`; move assignment (line 251) requires only `moveable`
(its other disjunct names the non-existent `properties::coyable`). Neither
operation requires the copyable capability. -/
theorem c3_move_only_supports_container_moves (base : CType) (bs : Nat)
    (src dst0 : Container) (m : Mem) :
    (dynProps base ⟨attrMovable, bs⟩).copyable = false ∧
    (dynProps base ⟨attrMovable, bs⟩).moveable = true ∧
    sameMoveCtor110Available (dynProps base ⟨attrMovable, bs⟩) = false ∧
    crossMoveCtorAvailable (dynProps base ⟨attrMovable, bs⟩) = true ∧
    containerMoveCtorAvailable (dynProps base ⟨attrMovable, bs⟩) = true ∧
    moveAssignOp251Available (dynProps base ⟨attrMovable, bs⟩) = true ∧
    containerMoveAssignAvailable (dynProps base ⟨attrMovable, bs⟩) = true ∧
    containerMoveConstruct base (dynProps base ⟨attrMovable, bs⟩) src m =
      doMove base (freshShell (dynProps base ⟨attrMovable, bs⟩)) src m ∧
    containerMoveAssign base { dst0 with dp := dynProps base ⟨attrMovable, bs⟩ } src m =
      doMove base { dst0 with dp := dynProps base ⟨attrMovable, bs⟩ } src
        (Container.destroy { dst0 with dp := dynProps base ⟨attrMovable, bs⟩ } base m) := by
  have hdp : dynProps base ⟨attrMovable, bs⟩ =
      { copyable := false, moveable := true,
        smallBufferSize := if bs = 0 then defaultBufferSize base else bs } := by
    simp [dynProps, attrMovable, attrDefault, attrCopyable]
    decide
  refine ⟨?_, ?_, ?_, ?_, ?_, ?_, ?_, ?_, ?_⟩
  · rw [hdp]
  · rw [hdp]
  · rw [hdp]; rfl
  · rw [hdp]; rfl
  · rw [hdp]; rfl
  · rw [hdp]; rfl
  · rw [hdp]; rfl
  · rw [hdp]; simp [containerMoveConstruct]
  · rw [hdp]; simp [containerMoveAssign]

/-- C8: the effective inline buffer size. With `SmallBufferSize` unset
(i.e. 0), `DynamicValProperties::small_buffer_size` is
`max(sizeof(BaseT) + sizeof(void*), 4 * sizeof(void*))`; with any nonzero
configured size it is exactly the configured value. -/
theorem c8_effective_buffer_size (base : CType) (attr bs : Nat) :
    (dynProps base ⟨attr, 0⟩).smallBufferSize =
      max (base.size + ptrSize) (4 * ptrSize) ∧
    (dynProps base ⟨attr, bs + 1⟩).smallBufferSize = bs + 1 := by
  constructor
  · simp [dynProps, defaultBufferSize]
  · simp [dynProps]

/-- C9: the `static_assert(properties::small_buffer_size >= sizeof(BaseT*))`
gate, a compile-time predicate of the instantiated container type (it takes
no runtime state). Any configured size of at least one pointer width passes
— in particular sizes smaller than `sizeof(BaseT)`, which merely force heap
storage for objects that large — while a nonzero configured size below one
pointer width makes the type fail to instantiate. -/
theorem c9_buffer_size_compile_gate (base : CType) (attr sz : Nat) :
    (ptrSize ≤ sz → instantiationOk base ⟨attr, sz⟩ = true) ∧
    (0 < sz → sz < ptrSize → instantiationOk base ⟨attr, sz⟩ = false) := by
  constructor
  · intro h
    have hsz : sz ≠ 0 := by
      intro h0
      rw [h0] at h
      exact absurd h (by decide)
    simp [instantiationOk, dynProps, hsz, h]
  · intro h0 hlt
    have hsz : sz ≠ 0 := Nat.pos_iff_ne_zero.mp h0
    simp [instantiationOk, dynProps, hsz]
    omega

/-- C9 witness: with a 100-byte base, a configured buffer of 8 bytes
(smaller than the base) instantiates; a configured buffer of 4 bytes is
rejected by the compile-time gate. -/
theorem c9_buffer_size_compile_gate_witness :
    instantiationOk ⟨1, 100, 1000, true, true, true⟩ ⟨attrDefault, 8⟩ = true ∧
    instantiationOk ⟨1, 100, 1000, true, true, true⟩ ⟨attrDefault, 4⟩ = false :=
  ⟨(c9_buffer_size_compile_gate ⟨1, 100, 1000, true, true, true⟩ attrDefault 8).1
      (by decide),
    (c9_buffer_size_compile_gate ⟨1, 100, 1000, true, true, true⟩ attrDefault 4).2
      (by decide) (by decide)⟩

/-- A base type of size 16 whose destructor is NOT virtual. -/
def baseNV : CType := ⟨1, 16, 1000, true, true, false⟩

/-- A derived concrete type of the same size, also without virtual dtor. -/
def childNV : CType := ⟨2, 16, 1001, true, true, false⟩

def dpNV : DynProps := dynProps baseNV ⟨attrDefault, 32⟩

/-- A container over `baseNV` move-constructed from a `childNV` rvalue
(stored locally: 16 ≤ 32). -/
def c4Run : Container × Obj × Mem :=
  valueRvalueConstruct dpNV childNV (mkObj childNV 3) Mem.empty

/-- C4 counterexample: `destroy()` invokes `~BaseT()` through the declared
base type. With a non-virtual base destructor and a held object of derived
dynamic type `childNV`, destruction runs the BASE's destructor (id 1), not
the held type's (id 2) — refuting the claim that destruction always runs the
held type's destructor. -/
theorem c4_nonvirtual_dtor_counterexample :
    c4Run.1.getObj c4Run.2.2 = some ⟨2, 1001, 3, false, Creation.moved⟩ ∧
    (c4Run.1.destroy baseNV c4Run.2.2).dtorLog = [baseNV.id] ∧
    baseNV.id ≠ childNV.id ∧
    (c4Run.1.destroy baseNV c4Run.2.2).dtorLog ≠ [childNV.id] := by
  decide

/-- Destruction and replacement leave the copy/move/ctor counters alone. -/
theorem destroy_preserves_ctor_counters (base : CType) (c : Container) (m : Mem) :
    (c.destroy base m).copies = m.copies ∧ (c.destroy base m).moves = m.moves ∧
      (c.destroy base m).ctors = m.ctors := by
  unfold Container.destroy Mem.deleteAt
  by_cases hl : c.isLocal <;> cases hsl : c.slot <;>
    simp only [hl, hsl, Bool.false_eq_true, if_true, if_false] <;>
    (try split) <;> (try split) <;> simp_all

/-- `set_emplace<T>` leaves a directly-constructed `T(args...)` dereferenceable
in the container, without invoking any copy or move constructor and without
running any destructor. -/
theorem setEmplace_spec (c : Container) (t : CType) (v : Int) (m : Mem) :
    (setEmplace c t v m).1.getObj (setEmplace c t v m).2 = some (mkObj t v) ∧
    (setEmplace c t v m).2.copies = m.copies ∧
    (setEmplace c t v m).2.moves = m.moves ∧
    (setEmplace c t v m).2.dtorLog = m.dtorLog := by
  unfold setEmplace
  by_cases h : t.size > c.dp.smallBufferSize
  · simp [h, Container.getObj, Mem.alloc, Mem.bumpBasic, Mem.lookup, assocFind]
  · simp [h, Container.getObj, Mem.bumpBasic]

/-- C4 (amended): destruction of a container holding a valid object — or its
replacement via `emplace` — runs exactly one destructor, and it is the held
type's destructor PROVIDED the declared base's destructor is virtual or the
held object's dynamic type is the base itself (`destroy()` calls `~BaseT()` /
`delete` through `BaseT*`, so destructor dispatch is the base's virtual
dispatch); locally-held objects are destroyed in place, heap-held ones
through deletion of the stored pointer. -/
theorem c4_destroy_runs_held_dtor (base t : CType) (c : Container) (o : Obj)
    (v : Int) (m : Mem) (h : Holds c m o)
    (hv : base.virtualDtor = true ∨ o.tyId = base.id) :
    (c.destroy base m).dtorLog = o.tyId :: m.dtorLog ∧
    (c.destroy base m).invalidFrees = m.invalidFrees ∧
    (emplaceOp base c t v m).2.dtorLog = o.tyId :: m.dtorLog := by
  have hr : runDtor base o = o.tyId := by
    rcases hv with hv | hv
    · simp [runDtor, hv]
    · simp [runDtor, hv]
  have hd : (c.destroy base m).dtorLog = o.tyId :: m.dtorLog ∧
      (c.destroy base m).invalidFrees = m.invalidFrees := by
    rcases h with ⟨hl, hs⟩ | ⟨hl, a, ha0, hs, hlk⟩
    · simp [Container.destroy, hl, hs, hr]
    · simp [Container.destroy, hl, hs, Mem.deleteAt, ha0, hlk, hr]
  refine ⟨hd.1, hd.2, ?_⟩
  have := (setEmplace_spec c t v (c.destroy base m)).2.2.2
  rw [emplaceOp, this, hd.1]

/-- A small concrete type (fits the 32-byte buffer of `dpB`). -/
def smallT : CType := ⟨4, 16, 1004, true, true, true⟩

/-- A container over the virtual-destructor base `baseB` holding a local
`smallT` object. -/
def c4W : Container := ⟨dpB, true, Slot.obj (mkObj smallT 5), some smallT⟩

/-- C4 witness: destroying a container over a virtual-destructor base runs
exactly the held type's destructor (id 4), also when the value is replaced
via `emplace`. -/
theorem c4_destroy_runs_held_dtor_witness :
    (c4W.destroy baseB Mem.empty).dtorLog = [4] ∧
    (c4W.destroy baseB Mem.empty).invalidFrees = 0 ∧
    (emplaceOp baseB c4W smallT 9 Mem.empty).2.dtorLog = [4] :=
  c4_destroy_runs_held_dtor baseB smallT c4W (mkObj smallT 5) 9 Mem.empty
    (Or.inl ⟨rfl, rfl⟩) (Or.inl rfl)

/-- `set` on the copy path leaves the source object untouched and books
exactly one copy construction and no move construction. -/
theorem setVal_copy_spec (c : Container) (t : CType) (s : Obj) (m : Mem) :
    (setVal c t s false m).2.1 = s ∧
    (setVal c t s false m).2.2.moves = m.moves ∧
    (setVal c t s false m).2.2.copies = m.copies + 1 := by
  unfold setVal
  by_cases h : t.size > c.dp.smallBufferSize
  · simp [h, Mem.alloc, Mem.bumpCopy]
  · simp [h, Mem.bumpCopy]

/-- A container over `baseB` holding a local `smallT` object, used as a
copy-only move source. -/
def c10Src : Container :=
  ⟨dynProps baseB ⟨attrCopyable, 32⟩, true, Slot.obj (mkObj smallT 6), some smallT⟩

/-- C10: on a copyable-but-not-movable container (`Properties<Attr::Copyable>`)
most move-flavored operations do degrade to copies — the rvalue value
CONSTRUCTOR's non-moveable branch calls `set(other)` with deduction, copying
and leaving the source unchanged with zero move-constructor calls, and a
container move reduces to `do_clone`, leaving the source container
untouched — but the rvalue value ASSIGNMENT does not: its `requires`-clause
(`moveable || copyable`) admits the call, yet the non-moveable branch at
line 227 is `set<NakedT>(other)`, whose explicitly-fixed `NakedT&&`
parameter cannot bind the lvalue `other`, so instantiating the operator is a
hard compile error instead of the copy the claim (and the header's own
"moves will be treated as a copy" documentation, backed by the repo's
`ConceptMoveAssignable<dynamic_value<CopyOnly>, CopyOnly>` test, which
passes only because a requires-expression never instantiates the body)
describes. -/
theorem c10_value_move_assign_ill_formed :
    (dynProps baseB ⟨attrCopyable, 32⟩).copyable = true ∧
    (dynProps baseB ⟨attrCopyable, 32⟩).moveable = false ∧
    valueRvalueAvailable (dynProps baseB ⟨attrCopyable, 32⟩) = true ∧
    (valueRvalueConstruct (dynProps baseB ⟨attrCopyable, 32⟩) smallT
        (mkObj smallT 6) Mem.empty).2.1 = mkObj smallT 6 ∧
    (valueRvalueConstruct (dynProps baseB ⟨attrCopyable, 32⟩) smallT
        (mkObj smallT 6) Mem.empty).2.2.moves = 0 ∧
    (valueRvalueConstruct (dynProps baseB ⟨attrCopyable, 32⟩) smallT
        (mkObj smallT 6) Mem.empty).2.2.copies = 1 ∧
    (containerMoveConstruct baseB (dynProps baseB ⟨attrCopyable, 32⟩) c10Src
        Mem.empty).2.1 = c10Src ∧
    (containerMoveConstruct baseB (dynProps baseB ⟨attrCopyable, 32⟩) c10Src
        Mem.empty).2.2.moves = 0 ∧
    setExplicitOk ValueCat.lvalue = false ∧
    valueRvalueAssign baseB c10Src smallT (mkObj smallT 6) Mem.empty = none := by
  decide

/-- C6: `emplace<T>(args...)` destroys the currently held object first
(exactly one destructor runs, through the base — see C4 for the dispatch
caveat) and then constructs `T(args...)` directly in storage: afterwards
dereferencing yields exactly the object `T(args...)` — dynamic type `T`,
creation tag `basic` — and no copy or move constructor of `T` was invoked
anywhere in between. -/
theorem c6_emplace_constructs_in_place (base t : CType) (c : Container) (v : Int)
    (o : Obj) (m : Mem) (h : Holds c m o) :
    (emplaceOp base c t v m).1.getObj (emplaceOp base c t v m).2 = some (mkObj t v) ∧
    (mkObj t v).tyId = t.id ∧ (mkObj t v).created = Creation.basic ∧
    (emplaceOp base c t v m).2.copies = m.copies ∧
    (emplaceOp base c t v m).2.moves = m.moves ∧
    (emplaceOp base c t v m).2.dtorLog = runDtor base o :: m.dtorLog := by
  have hse := setEmplace_spec c t v (c.destroy base m)
  have hdc := destroy_preserves_ctor_counters base c m
  have hdl : (c.destroy base m).dtorLog = runDtor base o :: m.dtorLog := by
    rcases h with ⟨hl, hs⟩ | ⟨hl, a, ha0, hs, hlk⟩
    · simp [Container.destroy, hl, hs]
    · simp [Container.destroy, hl, hs, Mem.deleteAt, ha0, hlk]
  refine ⟨?_, rfl, rfl, ?_, ?_, ?_⟩
  · exact hse.1
  · rw [emplaceOp, hse.2.1, hdc.1]
  · rw [emplaceOp, hse.2.2.1, hdc.2.1]
  · rw [emplaceOp, hse.2.2.2, hdl]

/-- C6 witness: emplacing a `smallT` with value 11 into a container holding a
local `smallT` object yields exactly `smallT(11)` (tag `basic`), with no copy
or move constructor call and one destructor run on the old object. -/
theorem c6_emplace_constructs_in_place_witness :
    (emplaceOp baseB c4W smallT 11 Mem.empty).1.getObj
        (emplaceOp baseB c4W smallT 11 Mem.empty).2 = some (mkObj smallT 11) ∧
    (mkObj smallT 11).tyId = smallT.id ∧
    (mkObj smallT 11).created = Creation.basic ∧
    (emplaceOp baseB c4W smallT 11 Mem.empty).2.copies = 0 ∧
    (emplaceOp baseB c4W smallT 11 Mem.empty).2.moves = 0 ∧
    (emplaceOp baseB c4W smallT 11 Mem.empty).2.dtorLog = [4] :=
  c6_emplace_constructs_in_place baseB smallT c4W 11 (mkObj smallT 5) Mem.empty
    (Or.inl ⟨rfl, rfl⟩)

/-- `do_clone` dispatches to the source table's `clone` on the held object. -/
theorem doClone_eq (base : CType) (dst src : Container) (t : CType) (o : Obj)
    (m : Mem) (ht : src.table = some t) (hg : src.getObj m = some o) :
    doClone base dst src m = ((tableClone base t dst o m).c, (tableClone base t dst o m).m) := by
  unfold doClone
  rw [ht, hg]

/-- `OperationsTable::clone` into a too-small destination: heap-allocate the
copy, store its address in the destination's pointer slot, fresh table. -/
theorem tableClone_big (base t : CType) (dst : Container) (o : Obj) (m : Mem)
    (hbc : base.copyCon = true) (hsz : t.size > dst.dp.smallBufferSize) :
    tableClone base t dst o m =
      ⟨{ dst with isLocal := false, slot := Slot.ptr m.nextAddr, table := some t },
        { m with
          nextAddr := m.nextAddr + 1, ctors := m.ctors + 1,
          copies := m.copies + 1, heap := (m.nextAddr, copyFromObj t o) :: m.heap }⟩ := by
  unfold tableClone
  simp [hbc, hsz, Mem.bumpCopy, Mem.alloc]

/-- `OperationsTable::clone` into a sufficient destination: copy-construct in
place, fresh table. -/
theorem tableClone_small (base t : CType) (dst : Container) (o : Obj) (m : Mem)
    (hbc : base.copyCon = true) (hsz : ¬t.size > dst.dp.smallBufferSize) :
    tableClone base t dst o m =
      ⟨{ dst with isLocal := true, slot := Slot.obj (copyFromObj t o), table := some t },
        m.bumpCopy⟩ := by
  unfold tableClone
  simp [hbc, hsz]

/-- C7: copy-constructing a container from a container holding `o` (of table
type `t`, with the base copy-constructible as the table's
`if constexpr` guard and the spec's copyability contract require) yields a
freshly copy-constructed, value-equal object of the same dynamic type in
independently owned storage: the source still dereferences to `o` after the
copy, mutating the clone's object does not change the source's, mutating the
source's does not change the clone's, and copy assignment delegates to the
same `do_clone` after destroying the destination's contents. -/
theorem c7_clone_independent_ownership (base t : CType) (dp2 : DynProps)
    (src : Container) (o : Obj) (m : Mem)
    (hbc : base.copyCon = true) (ht : src.table = some t) (h : HoldsWF src m o) :
    (containerCopyConstruct base dp2 src m).1.getObj
        (containerCopyConstruct base dp2 src m).2 = some (copyFromObj t o) ∧
    (copyFromObj t o).val = o.val ∧ (copyFromObj t o).tyId = t.id ∧
    (copyFromObj t o).created = Creation.copied ∧
    src.getObj (containerCopyConstruct base dp2 src m).2 = some o ∧
    (∀ v : Int,
      src.getObj
          ((containerCopyConstruct base dp2 src m).1.mutateVal
            (containerCopyConstruct base dp2 src m).2 v).2 = some o) ∧
    (∀ v : Int,
      ((containerCopyConstruct base dp2 src m).1.mutateVal
            (containerCopyConstruct base dp2 src m).2 v).1.getObj
          ((containerCopyConstruct base dp2 src m).1.mutateVal
            (containerCopyConstruct base dp2 src m).2 v).2 =
        some { copyFromObj t o with val := v }) ∧
    (∀ v : Int,
      (containerCopyConstruct base dp2 src m).1.getObj
          (src.mutateVal (containerCopyConstruct base dp2 src m).2 v).2 =
        some (copyFromObj t o)) ∧
    (∀ dst : Container,
      containerCopyAssign base dst src m = doClone base dst src (dst.destroy base m)) := by
  rcases h with ⟨hl, hs⟩ | ⟨hl, a, ha0, haN, hs, hlk⟩
  · -- the source holds its object locally
    have hg : src.getObj m = some o := by simp [Container.getObj, hl, hs]
    have hq := doClone_eq base (freshShell dp2) src t o m ht hg
    by_cases hsz : t.size > dp2.smallBufferSize
    · have htc := tableClone_big base t (freshShell dp2) o m hbc hsz
      have hq2 : containerCopyConstruct base dp2 src m =
          (⟨dp2, false, Slot.ptr m.nextAddr, some t⟩,
            { m with
              nextAddr := m.nextAddr + 1, ctors := m.ctors + 1,
              copies := m.copies + 1,
              heap := (m.nextAddr, copyFromObj t o) :: m.heap }) := by
        unfold containerCopyConstruct
        rw [hq, htc]
        rfl
      rw [hq2]
      refine ⟨?_, rfl, rfl, rfl, ?_, ?_, ?_, ?_, fun dst => rfl⟩
      · simp [Container.getObj, Mem.lookup, assocFind]
      · simp [Container.getObj, hl, hs]
      · intro v
        simp [Container.mutateVal, Container.getObj, hl, hs, Mem.lookup, Mem.update,
          assocFind]
      · intro v
        simp [Container.mutateVal, Container.getObj, Mem.lookup, Mem.update, assocFind,
          assocSet]
      · intro v
        simp [Container.mutateVal, Container.getObj, hl, hs, Mem.lookup, assocFind]
    · have htc := tableClone_small base t (freshShell dp2) o m hbc hsz
      have hq2 : containerCopyConstruct base dp2 src m =
          (⟨dp2, true, Slot.obj (copyFromObj t o), some t⟩, m.bumpCopy) := by
        unfold containerCopyConstruct
        rw [hq, htc]
        rfl
      rw [hq2]
      refine ⟨?_, rfl, rfl, rfl, ?_, ?_, ?_, ?_, fun dst => rfl⟩
      · simp [Container.getObj]
      · simp [Container.getObj, hl, hs]
      · intro v
        simp [Container.mutateVal, Container.getObj, hl, hs]
      · intro v
        simp [Container.mutateVal, Container.getObj]
      · intro v
        simp [Container.mutateVal, Container.getObj, hl, hs]
  · -- the source's object lives on the heap at address a
    have hg : src.getObj m = some o := by
      simp [Container.getObj, hl, hs]
      exact hlk
    have hne : a ≠ m.nextAddr := Nat.ne_of_lt haN
    have hq := doClone_eq base (freshShell dp2) src t o m ht hg
    by_cases hsz : t.size > dp2.smallBufferSize
    · have htc := tableClone_big base t (freshShell dp2) o m hbc hsz
      have hq2 : containerCopyConstruct base dp2 src m =
          (⟨dp2, false, Slot.ptr m.nextAddr, some t⟩,
            { m with
              nextAddr := m.nextAddr + 1, ctors := m.ctors + 1,
              copies := m.copies + 1,
              heap := (m.nextAddr, copyFromObj t o) :: m.heap }) := by
        unfold containerCopyConstruct
        rw [hq, htc]
        rfl
      rw [hq2]
      refine ⟨?_, rfl, rfl, rfl, ?_, ?_, ?_, ?_, fun dst => rfl⟩
      · simp [Container.getObj, Mem.lookup, assocFind]
      · simp [Container.getObj, hl, hs, Mem.lookup, assocFind, Ne.symm hne]
        exact hlk
      · intro v
        simp [Container.mutateVal, Container.getObj, hl, hs, Mem.lookup, Mem.update,
          assocFind, assocSet, Ne.symm hne]
        rw [assocFind_assocSet_ne _ _ _ _ hne]
        exact hlk
      · intro v
        simp [Container.mutateVal, Container.getObj, Mem.lookup, Mem.update, assocFind,
          assocSet]
      · intro v
        have hlk2 : assocFind m.heap a = some o := hlk
        simp [Container.mutateVal, Container.getObj, hl, hs, Mem.lookup, Mem.update,
          assocFind, assocSet, Ne.symm hne, hlk2]
    · have htc := tableClone_small base t (freshShell dp2) o m hbc hsz
      have hq2 : containerCopyConstruct base dp2 src m =
          (⟨dp2, true, Slot.obj (copyFromObj t o), some t⟩, m.bumpCopy) := by
        unfold containerCopyConstruct
        rw [hq, htc]
        rfl
      rw [hq2]
      refine ⟨?_, rfl, rfl, rfl, ?_, ?_, ?_, ?_, fun dst => rfl⟩
      · simp [Container.getObj]
      · simp [Container.getObj, hl, hs, Mem.bumpCopy, Mem.lookup]
        simpa [Mem.lookup] using hlk
      · intro v
        simp [Container.mutateVal, Container.getObj, hl, hs, Mem.bumpCopy, Mem.lookup]
        simpa [Mem.lookup] using hlk
      · intro v
        simp [Container.mutateVal, Container.getObj]
      · intro v
        simp [Container.mutateVal, Container.getObj, hl, hs, Mem.bumpCopy, Mem.lookup,
          Mem.update]

/-- A container over `baseB` holding a local `smallT` object with value 7. -/
def c7Src : Container := ⟨dpB, true, Slot.obj (mkObj smallT 7), some smallT⟩

/-- C7 witness: at a concrete source, the clone dereferences to a value-equal
copy, the source still dereferences to its own object, and mutating the
clone's object (to 42) leaves the source's object unchanged. -/
theorem c7_clone_independent_ownership_witness :
    (containerCopyConstruct baseB dpB c7Src Mem.empty).1.getObj
        (containerCopyConstruct baseB dpB c7Src Mem.empty).2 =
      some (copyFromObj smallT (mkObj smallT 7)) ∧
    c7Src.getObj (containerCopyConstruct baseB dpB c7Src Mem.empty).2 =
      some (mkObj smallT 7) ∧
    c7Src.getObj
        ((containerCopyConstruct baseB dpB c7Src Mem.empty).1.mutateVal
          (containerCopyConstruct baseB dpB c7Src Mem.empty).2 42).2 =
      some (mkObj smallT 7) :=
  have X := c7_clone_independent_ownership baseB smallT dpB c7Src (mkObj smallT 7)
    Mem.empty rfl rfl (Or.inl ⟨rfl, rfl⟩)
  ⟨X.1, X.2.2.2.2.1, X.2.2.2.2.2.1 42⟩
